import Mathlib

/-!
Verification development for the PyTopo3D repository.

The file embeds `top3d` from `src/pytopo3d/core/optimizer.py` and the keyword
call made by `execute_optimization` in `src/pytopo3d/runners/experiment.py`.

Modelling conventions:
* Machine floats are modelled as exact rationals (`ℚ`); the SIMP penal
  exponent is modelled as a natural number (the code passes a float such as
  `3.0`; none of the settled claims depends on non-integer exponents).
* All 3-D arrays of shape `(nely, nelx, nelz)` are represented by their
  Fortran-order ravelling, i.e. as functions `ℕ → ℚ` together with the
  element count `nele = nelx * nely * nelz`.  The spec (section 3) states
  that a single global linear ordering is used consistently so that
  reshape/flatten round-trips are lossless, so this flattening loses
  nothing.
* The modules imported by `optimizer.py` but absent from `src/`
  (`build_force_vector`, `build_supports`, `lk_H8`, `build_edof`,
  `build_filter`, `solver`, `element_compliance`, and
  `optimality_criteria_update`) are either kept as explicit parameters of
  the embedding (a `Collab` record standing for the collaborator modules)
  or, where a claim needs their behaviour, modelled from the spec; such
  definitions carry a doc comment starting with `Modelled from the spec:`.
-/

namespace PyTopo3D

/-- A flat per-element (or per-DOF) array of rationals. -/
abbrev Field := ℕ → ℚ

/-- A flat boolean per-element mask. -/
abbrev Mask := ℕ → Bool

/-- Young's modulus of solid material, `E0 = 1.0` in `top3d`. -/
def E0 : ℚ := 1

/-- Minimum stiffness, `Emin = 1e-9` in `top3d`. -/
def Emin : ℚ := 1 / 1000000000

/-- The arguments of `top3d` (optimizer.py lines 27-38).  `rmin` is consumed
only by the absent `build_filter` module (represented by the `H`/`Hs`
fields of `Collab`), and `disp_thres` only by the display branch, which is
dead code because `displayflag = False`. -/
structure Params where
  nelx : ℕ
  nely : ℕ
  nelz : ℕ
  volfrac : ℚ
  penal : ℕ
  rmin : ℚ
  disp_thres : ℚ
  obstacle_mask : Option Mask
  tolx : ℚ
  maxloop : ℕ

/-- Total element count `nele = nelx * nely * nelz` (optimizer.py line 79). -/
def nele (p : Params) : ℕ := p.nelx * p.nely * p.nelz

/-- The obstacle mask actually used: the `None` default is replaced by an
all-`False` mask (optimizer.py lines 84-85) before any other use. -/
def maskOf (p : Params) : Mask := p.obstacle_mask.getD (fun _ => false)

/-- Number of design elements `design_nele = nele - count_nonzero(mask)`
(optimizer.py line 88). -/
def designNele (p : Params) : ℕ :=
  nele p - ((Finset.range (nele p)).filter (fun e => maskOf p e = true)).card

/-- Overwrite a field with zero wherever the mask is true; embeds the numpy
idiom `v[obstacle_mask] = 0.0`. -/
def maskZero (m : Mask) (v : Field) : Field := fun e => if m e then 0 else v e

/-- The density filter as applied to design variables in optimizer.py lines
129 and 196: `(H * v.ravel(order="F") / Hs)`, i.e. apply the matrix first
and divide element-wise by `Hs` afterwards. -/
def filterDensity (n : ℕ) (H : ℕ → ℕ → ℚ) (Hs : ℕ → ℚ) (v : Field) : Field :=
  fun i => (∑ j ∈ Finset.range n, H i j * v j) / Hs i

/-- The filter as applied to the sensitivity fields `dc` and `dv` in
optimizer.py lines 180-181: `(H * (v.ravel(order="F") / Hs))`, i.e. divide
element-wise by `Hs` first and apply the matrix afterwards. -/
def filterSens (n : ℕ) (H : ℕ → ℕ → ℚ) (Hs : ℕ → ℚ) (v : Field) : Field :=
  fun i => ∑ j ∈ Finset.range n, H i j * (v j / Hs j)

/-- numpy's `np.clip(v, lo, hi)`. -/
def clip (v lo hi : ℚ) : ℚ := min (max v lo) hi

/-- Modelled from the spec: the candidate density proposed inside the
bisection of `optimality_criteria_update` (`pytopo3d/utils/oc_update.py`
is not under `src/`).  Spec section 4.7: propose
`clip(x * sqrt(-dc/(lambda*dv)), max(0, x - step), min(1, x + step))`
element-wise with step `0.2`, excluding obstacle cells and cells with
`dv = 0` from the update entirely.  The irrational square root is
represented by an explicit function parameter `sq`; every settled claim
holds for an arbitrary `sq`. -/
def ocProposal (sq : ℚ → ℚ) (x dc dv : Field) (m : Mask) (lmid : ℚ) : Field :=
  fun e =>
    if m e = true ∨ dv e = 0 then x e
    else clip (x e * sq (-dc e / (lmid * dv e)))
      (max 0 (x e - 1 / 5)) (min 1 (x e + 1 / 5))

/-- Modelled from the spec: the volume measure compared against `volfrac`
inside the OC bisection — the mean over non-obstacle cells of the filtered
candidate densities (spec section 4.7). -/
def ocVolume (n : ℕ) (H : ℕ → ℕ → ℚ) (Hs : ℕ → ℚ) (m : Mask) (dn : ℕ)
    (xc : Field) : ℚ :=
  (∑ e ∈ (Finset.range n).filter (fun e => m e = false),
      filterDensity n H Hs xc e) / (dn : ℚ)

/-- Modelled from the spec: the bisection search over the Lagrange
multiplier in `optimality_criteria_update` (spec section 4.7): start from a
bounded bracket, narrow it according to whether the candidate volume is
above or below target, and stop on a relative-bracket-width cutoff or an
iteration cap (here the structural fuel). -/
def ocBisect (sq : ℚ → ℚ) (n : ℕ) (H : ℕ → ℕ → ℚ) (Hs : ℕ → ℚ) (m : Mask)
    (dn : ℕ) (volfrac : ℚ) (x dc dv : Field) :
    ℕ → ℚ → ℚ → Field
  | 0, l1, l2 => ocProposal sq x dc dv m ((l1 + l2) / 2)
  | fuel + 1, l1, l2 =>
    if (l2 - l1) / (l1 + l2) > 1 / 1000 then
      if ocVolume n H Hs m dn (ocProposal sq x dc dv m ((l1 + l2) / 2)) >
          volfrac then
        ocBisect sq n H Hs m dn volfrac x dc dv fuel ((l1 + l2) / 2) l2
      else
        ocBisect sq n H Hs m dn volfrac x dc dv fuel l1 ((l1 + l2) / 2)
    else ocProposal sq x dc dv m ((l1 + l2) / 2)

/-- The convergence signal `change = max(abs(xnew - x))` returned by the OC
update (spec section 4.7). -/
def ocChange (n : ℕ) (x xnew : Field) : ℚ :=
  ((List.range n).map (fun e => |xnew e - x e|)).foldr max 0

/-- Modelled from the spec: `optimality_criteria_update` (called at
optimizer.py line 188; `pytopo3d/utils/oc_update.py` is not under `src/`).
Returns the updated density field together with `change`.  The bracket
`[0, 1e9]` and the bisection cap are fixed numerical conventions. -/
def ocUpdate (sq : ℚ → ℚ) (n : ℕ) (H : ℕ → ℕ → ℚ) (Hs : ℕ → ℚ) (m : Mask)
    (dn : ℕ) (volfrac : ℚ) (x dc dv : Field) : Field × ℚ :=
  let xnew := ocBisect sq n H Hs m dn volfrac x dc dv 200 0 1000000000
  (xnew, ocChange n x xnew)

/-- The deduplicated key list produced by `np.unique(pairs, axis=0)` at
optimizer.py line 109, applied to an assembly list of `((row, col), value)`
contributions.  `np.unique` returns the distinct pairs in sorted order;
here they are kept in first-occurrence order, which changes nothing about
the assembled values (entries are looked up by key, never by slot order). -/
def uniqueKeys (l : List ((ℕ × ℕ) × ℚ)) : List (ℕ × ℕ) :=
  (l.map Prod.fst).dedup

/-- Slot `i` of `np.bincount(assembly_map, weights=sK_full)` at optimizer.py
line 157: the sum of all contribution values whose deduplicated slot index
(`assembly_map`, i.e. the index of their `(row, col)` key in the unique key
list) equals `i`. -/
def bincountAt (l : List ((ℕ × ℕ) × ℚ)) (i : ℕ) : ℚ :=
  ((l.filter fun a => (uniqueKeys l).indexOf a.1 == i).map Prod.snd).sum

/-- Entry of the global stiffness matrix assembled through the precomputed
map (optimizer.py lines 107-114 and 156-158): the `K_template` CSR holds
one slot per unique `(row, col)` pair, filled by `bincountAt`. -/
def assembledEntry (l : List ((ℕ × ℕ) × ℚ)) (pr : ℕ × ℕ) : ℚ :=
  if pr ∈ uniqueKeys l then bincountAt l ((uniqueKeys l).indexOf pr) else 0

/-- Entry of a from-scratch sparse build that sums duplicate `(row, col)`
contributions directly (the behaviour of `scipy.sparse.csr_matrix` on COO
triplets with repeated indices). -/
def scratchEntry (l : List ((ℕ × ℕ) × ℚ)) (pr : ℕ × ℕ) : ℚ :=
  ((l.filter fun a => a.1 == pr).map Prod.snd).sum

/-- Pair each `(row, col)` index pair with its weighted stiffness value
`sK_full[k]`, position-aligned as in optimizer.py line 157. -/
def asmListOf (pairs : List (ℕ × ℕ)) (vals : ℕ → ℚ) : List ((ℕ × ℕ) × ℚ) :=
  pairs.enum.map fun ke => (ke.2, vals ke.1)

/-- The assembled global matrix as an entry function, handed to the solver
abstraction. -/
def kmatOf (l : List ((ℕ × ℕ) × ℚ)) : ℕ → ℕ → ℚ :=
  fun r c => assembledEntry l (r, c)

/-- Modelled from the spec: `element_compliance` (called at optimizer.py
line 168; `pytopo3d/core/compliance.py` is not under `src/`).  Spec section
4.6: per-element strain energy `ce = u^T * KE * u` restricted to each
element's 24 local DOFs. -/
def ceOf (U : Field) (edof : ℕ → ℕ → ℕ) (KE : ℕ → ℕ → ℚ) : Field := fun e =>
  ∑ a ∈ Finset.range 24, ∑ b ∈ Finset.range 24,
    U (edof e a) * KE a b * U (edof e b)

/-- The mutable and immutable data threaded through the iteration loop of
`top3d`.  `cObj` and `volCur` model the Python locals `c` and
`current_volume_fraction`, which are bound only inside the loop body and
hence are `none` until the first iteration has run. -/
structure OptState where
  x : Field
  xPhys : Field
  U : Field
  Kdata : ℕ → ℚ
  cObj : Option ℚ
  volCur : Option ℚ
  change : ℚ
  loop : ℕ
  H : ℕ → ℕ → ℚ
  Hs : ℕ → ℚ
  F : Field
  freedofs : ℕ → Bool
  KE : ℕ → ℕ → ℚ
  edofMat : ℕ → ℕ → ℕ
  pairsList : List (ℕ × ℕ)

/-- The collaborator modules imported by `optimizer.py` but absent from
`src/`: the filter pair `(H, Hs)` from `build_filter`, the force vector
from `build_force_vector`, the DOF partition from `build_supports`
(represented by the free-DOF indicator; fixed DOFs are its complement),
the 24 x 24 element stiffness matrix from `lk_H8`, the DOF table and index
pairs `(iK-1, jK-1)` from `build_edof`, the linear `solver`, and the
square-root function used inside the OC update proposal. -/
structure Collab where
  H : ℕ → ℕ → ℚ
  Hs : ℕ → ℚ
  F : Field
  freedofs : ℕ → Bool
  KE : ℕ → ℕ → ℚ
  edofMat : ℕ → ℕ → ℕ
  pairsList : List (ℕ × ℕ)
  solver : (ℕ → ℕ → ℚ) → Field → Field
  sqrtFn : ℚ → ℚ

/-- The state after the setup phase of `top3d` (optimizer.py lines 94-132):
density initialized to `volfrac` and forced to 0 inside obstacles (lines
125-127), initial physical density from the filter (line 129) — note, not
re-zeroed on obstacles at this point — `U = 0`, `K_template` values zero,
`loop = 0`, `change = 1.0`, and `c` not yet bound. -/
def initState (p : Params) (col : Collab) : OptState :=
  let m := maskOf p
  let x0 := maskZero m (fun _ => p.volfrac)
  { x := x0
    xPhys := filterDensity (nele p) col.H col.Hs x0
    U := fun _ => 0
    Kdata := fun _ => 0
    cObj := none
    volCur := none
    change := 1
    loop := 0
    H := col.H
    Hs := col.Hs
    F := col.F
    freedofs := col.freedofs
    KE := col.KE
    edofMat := col.edofMat
    pairsList := col.pairsList }

/-- One iteration of the `top3d` loop body (optimizer.py lines 147-220):
assemble the SIMP-weighted stiffness values through the precomputed
assembly map, solve on the free DOFs, compute compliance and sensitivities,
filter the sensitivities as `H * (v / Hs)` and zero them on obstacles, run
the OC update, zero the new design on obstacles, recompute the physical
density as `(H * xnew) / Hs` and zero it on obstacles, and record the
objective, volume fraction, and change. -/
def step (p : Params) (sol : (ℕ → ℕ → ℚ) → Field → Field) (sq : ℚ → ℚ)
    (s : OptState) : OptState :=
  let n := nele p
  let m := maskOf p
  let sv : Field := fun e => Emin + s.xPhys e ^ p.penal * (E0 - Emin)
  let keFlat : ℕ → ℚ := fun t => s.KE (t / 24) (t % 24)
  let sK : ℕ → ℚ := fun k => sv (k / 576) * keFlat (k % 576)
  let asm := asmListOf s.pairsList sK
  let Ff : Field := fun i => if s.freedofs i then s.F i else 0
  let Uf := sol (kmatOf asm) Ff
  let U' : Field := fun i => if s.freedofs i then Uf i else 0
  let ce := ceOf U' s.edofMat s.KE
  let c := ∑ e ∈ Finset.range n, (Emin + s.xPhys e ^ p.penal * (E0 - Emin)) * ce e
  let dc0 : Field := fun e =>
    -(p.penal : ℚ) * (E0 - Emin) * s.xPhys e ^ (p.penal - 1) * ce e
  let dv0 : Field := fun _ => 1
  let dc1 := maskZero m (filterSens n s.H s.Hs dc0)
  let dv1 := maskZero m (filterSens n s.H s.Hs dv0)
  let upd := ocUpdate sq n s.H s.Hs m (designNele p) p.volfrac s.x dc1 dv1
  let xnew := maskZero m upd.1
  let xPhys' := maskZero m (filterDensity n s.H s.Hs xnew)
  let vol := (∑ e ∈ (Finset.range n).filter (fun e => m e = false), xPhys' e) /
    ((designNele p : ℚ))
  { s with
    x := xnew
    xPhys := xPhys'
    U := U'
    Kdata := fun i => bincountAt asm i
    cObj := some c
    volCur := some vol
    change := upd.2
    loop := s.loop + 1 }

/-- The `while change > tolx and loop < maxloop` loop of optimizer.py line
146, with `maxloop - loop` as structural fuel (`loop` increments by one per
iteration, so `loop < maxloop` holds exactly when fuel remains). -/
def runLoop (p : Params) (sol : (ℕ → ℕ → ℚ) → Field → Field) (sq : ℚ → ℚ) :
    ℕ → OptState → OptState
  | 0, s => s
  | fuel + 1, s =>
    if s.change > p.tolx then runLoop p sol sq fuel (step p sol sq s) else s

/-- The final loop state of a `top3d` call. -/
def top3dRun (p : Params) (col : Collab) : OptState :=
  runLoop p col.solver col.sqrtFn p.maxloop (initState p col)

/-- The embedding of `top3d` (optimizer.py lines 27-243).  Two error paths
end without a returned array, both modelled by `none`:
* line 89 logs a debug message whose f-string eagerly evaluates
  `design_nele / nele` regardless of log level; with `nele = 0` (any zero
  grid dimension) this raises `ZeroDivisionError` before any setup work —
  force vector, supports, stiffness kernel, index arrays, filter — is
  performed.  (A negative dimension dies even earlier, at the `np.zeros`
  mask default on line 85; natural-number dimensions cannot express that
  case.)
* after the loop, line 238 formats the local `c` into the final log
  message; if the loop body never ran, `c` was never bound and the
  function raises `UnboundLocalError` instead of returning.
Otherwise the final physical density field is returned. -/
def top3d (p : Params) (col : Collab) : Option Field :=
  if nele p = 0 then none
  else
    match (top3dRun p col).cObj with
    | none => none
    | some _ => some (top3dRun p col).xPhys

/-- The sparsity pattern of `K_template`: the set of deduplicated
`(row, col)` pairs, determined by `pairsList` alone. -/
def sparsityKeys (s : OptState) : List (ℕ × ℕ) := s.pairsList.dedup

/-- The parameter names of `def top3d(...)` (optimizer.py lines 27-38), in
order.  The signature has no `**kwargs` catch-all. -/
def top3dParamNames : List String :=
  ["nelx", "nely", "nelz", "volfrac", "penal", "rmin", "disp_thres",
   "obstacle_mask", "tolx", "maxloop"]

/-- The keyword arguments of the call `top3d(...)` made by
`execute_optimization` (experiment.py lines 164-178); the first seven
arguments are passed positionally, these are the keyword ones. -/
def executeOptimizationKeywords : List String :=
  ["obstacle_mask", "tolx", "maxloop", "save_history", "history_frequency",
   "benchmark_tracker"]

/-- Python keyword-call semantics for a function without `**kwargs`: if any
keyword is not among the parameter names, the call raises `TypeError`
before the function body runs. -/
def pythonKeywordCall (params kwargs : List String) : Except String Unit :=
  if kwargs.all params.contains then Except.ok ()
  else Except.error "TypeError: unexpected keyword argument"

/-- A per-element field lies in the box `[0, 1]` on the first `n` elements. -/
def fieldOk (n : ℕ) (v : Field) : Prop := ∀ e, e < n → 0 ≤ v e ∧ v e ≤ 1

/-- A per-element field is exactly zero on every masked cell. -/
def maskedOk (m : Mask) (v : Field) : Prop := ∀ e, m e = true → v e = 0

/-- What `build_filter` guarantees about the pair `(H, Hs)` per spec section
4.4: nonnegative weights, `Hs` the row sums of `H`, and positive row sums
(each element is within distance `rmin > 0` of itself, so every row
contains its positive diagonal weight). -/
def filterOk (n : ℕ) (H : ℕ → ℕ → ℚ) (Hs : ℕ → ℚ) : Prop :=
  (∀ i j, i < n → j < n → 0 ≤ H i j) ∧
  (∀ i, i < n → Hs i = ∑ j ∈ Finset.range n, H i j) ∧
  (∀ i, i < n → 0 < Hs i)

/-- The loop invariant: a well-formed filter pair, the design variables in
`[0, 1]` and zero on obstacles, and — once the loop body has run at least
once (`cObj` bound) — the physical densities in `[0, 1]` and zero on
obstacles. -/
def stateOk (p : Params) (s : OptState) : Prop :=
  filterOk (nele p) s.H s.Hs ∧
  fieldOk (nele p) s.x ∧ maskedOk (maskOf p) s.x ∧
  (s.cObj.isSome = true → fieldOk (nele p) s.xPhys ∧ maskedOk (maskOf p) s.xPhys)

/-- A concrete one-element filter matrix (the `build_filter` output for a
1 x 1 x 1 grid with `rmin = 3/2`: the only weight is the self-weight
`rmin - 0 = 3/2`). -/
def cH : ℕ → ℕ → ℚ := fun i j => if i = j then mkRat 3 2 else 0

/-- Row sums of `cH` on the one-element grid. -/
def cHs : ℕ → ℚ := fun _ => mkRat 3 2

/-- A concrete instantiation of the collaborator modules, for evaluating the
embedding at concrete inputs: the one-element filter above, zero force,
all DOFs free, zero element stiffness, trivial DOF table, no index pairs, a
solver returning the zero vector, and the identity in place of the square
root. -/
def cCollab : Collab :=
  { H := cH
    Hs := cHs
    F := fun _ => 0
    freedofs := fun _ => true
    KE := fun _ _ => 0
    edofMat := fun _ _ => 0
    pairsList := []
    solver := fun _ _ => fun _ => 0
    sqrtFn := fun q => q }

/-- A valid parameter set on a 1 x 1 x 1 grid. -/
def pValid : Params :=
  { nelx := 1, nely := 1, nelz := 1, volfrac := mkRat 1 2, penal := 3,
    rmin := mkRat 3 2, disp_thres := mkRat 1 2, obstacle_mask := none,
    tolx := mkRat 1 100, maxloop := 1 }

/-- An invalid parameter set: `volfrac = 2` lies outside `(0, 1)`. -/
def pInvalid : Params := { pValid with volfrac := 2, tolx := mkRat 1 2 }

/-- Parameters with a very large tolerance, `tolx = 10` (scenario of C4). -/
def pC4x : Params := { pValid with tolx := 10, maxloop := 5 }

/-- Valid parameters (`tolx = 2 > 0`) on which the loop body never runs. -/
def pC6x : Params := { pValid with tolx := 2, maxloop := 5 }

/-- Parameters with `tolx = 10` for exercising the unbound-local failure. -/
def pC9x : Params := { pValid with tolx := 10 }

/-- Parameters with a zero grid dimension (`nelx = 0`, so `nele = 0`), on
which the real `top3d` dies in the line-89 debug f-string. -/
def pZero : Params := { pValid with nelx := 0 }

/-- The filter matrix produced by `build_filter` (spec section 4.4) for a
1 x 3 x 1 line of elements with `rmin = 3/2`: weight `max(0, 3/2 - d)` at
integer voxel distance `d`, so `3/2` on the diagonal, `1/2` between
neighbours, `0` beyond. -/
def cH3 : ℕ → ℕ → ℚ := fun i j =>
  if i = j then mkRat 3 2 else if i + 1 = j ∨ j + 1 = i then mkRat 1 2 else 0

/-- Row sums of `cH3` over the three elements: `(2, 5/2, 2)`. -/
def cHs3 : ℕ → ℚ := fun i => if i = 1 then mkRat 5 2 else 2

/-- A concrete unit test field: `1` in element 0, else `0`. -/
def v3 : Field := fun i => if i = 0 then 1 else 0

theorem runLoop_stay (p : Params) (sol : (ℕ → ℕ → ℚ) → Field → Field)
    (sq : ℚ → ℚ) (s : OptState) (h : ¬ s.change > p.tolx) :
    ∀ fuel, runLoop p sol sq fuel s = s := by
  intro fuel
  cases fuel with
  | zero => rfl
  | succ n => simp [runLoop, h]

theorem runLoop_loop_le (p : Params) (sol : (ℕ → ℕ → ℚ) → Field → Field)
    (sq : ℚ → ℚ) : ∀ fuel s, (runLoop p sol sq fuel s).loop ≤ s.loop + fuel := by
  intro fuel
  induction fuel with
  | zero => intro s; simp [runLoop]
  | succ n ih =>
    intro s
    simp only [runLoop]
    split
    · have h1 := ih (step p sol sq s)
      have h2 : (step p sol sq s).loop = s.loop + 1 := rfl
      omega
    · omega

theorem runLoop_exit (p : Params) (sol : (ℕ → ℕ → ℚ) → Field → Field)
    (sq : ℚ → ℚ) : ∀ fuel s, (runLoop p sol sq fuel s).change ≤ p.tolx ∨
      (runLoop p sol sq fuel s).loop = s.loop + fuel := by
  intro fuel
  induction fuel with
  | zero => intro s; right; rfl
  | succ n ih =>
    intro s
    simp only [runLoop]
    split
    · rcases ih (step p sol sq s) with h1 | h1
      · exact Or.inl h1
      · right
        have h2 : (step p sol sq s).loop = s.loop + 1 := rfl
        omega
    · rename_i h
      exact Or.inl (not_lt.mp h)

theorem runLoop_isSome (p : Params) (sol : (ℕ → ℕ → ℚ) → Field → Field)
    (sq : ℚ → ℚ) : ∀ fuel s, s.cObj.isSome = true →
      (runLoop p sol sq fuel s).cObj.isSome = true := by
  intro fuel
  induction fuel with
  | zero => intro s h; exact h
  | succ n ih =>
    intro s h
    simp only [runLoop]
    split
    · exact ih (step p sol sq s) rfl
    · exact h

theorem top3d_eq_of_isSome (p : Params) (col : Collab) (hn : nele p ≠ 0)
    (h : (top3dRun p col).cObj.isSome = true) :
    top3d p col = some (top3dRun p col).xPhys := by
  obtain ⟨a, ha⟩ := Option.isSome_iff_exists.mp h
  unfold top3d
  rw [if_neg hn, ha]

theorem initState_change (p : Params) (col : Collab) :
    (initState p col).change = 1 := rfl

/-- C9: if the loop body of `top3d` never executes — which happens whenever
`tolx >= 1.0` (`change` starts at `1.0` and the loop needs `change > tolx`)
or `maxloop <= 0` — then `top3d` does not return a density array: the local
`c` is never bound, so the final logging line raises an unbound-local
error, modelled here by the `none` result. -/
theorem c9_zero_iterations_unbound_local (p : Params) (col : Collab)
    (h : 1 ≤ p.tolx ∨ p.maxloop = 0) : top3d p col = none := by
  have hrun : top3dRun p col = initState p col := by
    rcases h with h | h
    · have hc : ¬ (initState p col).change > p.tolx := by
        rw [initState_change]
        exact not_lt.mpr h
      exact runLoop_stay p col.solver col.sqrtFn (initState p col) hc p.maxloop
    · unfold top3dRun
      rw [h]
      rfl
  unfold top3d
  by_cases hn : nele p = 0
  · rw [if_pos hn]
  · rw [if_neg hn, hrun]
    rfl

/-- Witness for C9 at the concrete input `tolx = 10`. -/
theorem c9_witness :
    (1 ≤ pC9x.tolx ∨ pC9x.maxloop = 0) ∧ top3d pC9x cCollab = none :=
  ⟨Or.inl (by decide),
    c9_zero_iterations_unbound_local pC9x cCollab (Or.inl (by decide))⟩

/-- C4 counterexample: with `tolx = 10` the loop of `top3d` terminates after
0 iterations, not after exactly 1 as claimed — the initial `change = 1.0`
already fails the `change > tolx` test at the top of the loop. -/
theorem c4_counterexample : (top3dRun pC4x cCollab).loop ≠ 1 := by
  have h : (top3dRun pC4x cCollab).loop = 0 := by
    have hc : ¬ (initState pC4x cCollab).change > pC4x.tolx := by
      rw [initState_change]; decide
    unfold top3dRun
    rw [runLoop_stay pC4x cCollab.solver cCollab.sqrtFn _ hc]
    rfl
  rw [h]
  decide

/-- C4 amended: if `tolx >= 1` (e.g. `tolx = 10`), the optimization loop of
`top3d` terminates after exactly 0 iterations — `change` is initialized to
`1.0`, so the `change > tolx` test at the top of the loop fails before the
first iteration and the body never runs. -/
theorem c4_large_tolx_zero_iterations (p : Params) (col : Collab)
    (h : 1 ≤ p.tolx) : (top3dRun p col).loop = 0 := by
  have hc : ¬ (initState p col).change > p.tolx := by
    rw [initState_change]; exact not_lt.mpr h
  unfold top3dRun
  rw [runLoop_stay p col.solver col.sqrtFn _ hc]
  rfl

/-- Witness for the amended C4 at `tolx = 10`. -/
theorem c4_witness : 1 ≤ pC4x.tolx ∧ (top3dRun pC4x cCollab).loop = 0 :=
  ⟨by decide, c4_large_tolx_zero_iterations pC4x cCollab (by decide)⟩

/-- C6 counterexample: `pC6x` is a valid input in the claim's sense
(`tolx = 2 > 0`, `maxloop = 5 >= 1`, positive dimensions, `volfrac` in
`(0,1)`), the loop exits through the converged branch (`change <= tolx`
immediately), yet `top3d` does not return the density field — it raises
the unbound-local error, modelled by `none`. -/
theorem c6_counterexample :
    (0 < pC6x.tolx ∧ 1 ≤ pC6x.maxloop) ∧ top3d pC6x cCollab = none := by
  refine ⟨⟨by decide, by decide⟩, ?_⟩
  have hc : ¬ (initState pC6x cCollab).change > pC6x.tolx := by
    rw [initState_change]; decide
  have hrun : top3dRun pC6x cCollab = initState pC6x cCollab := by
    unfold top3dRun
    rw [runLoop_stay pC6x cCollab.solver cCollab.sqrtFn _ hc]
  unfold top3d
  rw [hrun]
  rfl

/-- C6 amended: for every valid input (positive grid dimensions,
`maxloop >= 1`), provided the loop body runs at least once — i.e.
`tolx < 1`, so the initial `change = 1.0` passes the test — the loop of
`top3d` executes at most `maxloop` iterations, it stops either with
`change <= tolx` (converged) or after exactly `maxloop` iterations (cap
reached, a warning only), and in both cases `top3d` returns the latest
physical density field. -/
theorem c6_bounded_loop_returns_density (p : Params) (col : Collab)
    (hx1 : 0 < p.nelx) (hy1 : 0 < p.nely) (hz1 : 0 < p.nelz)
    (h1 : p.tolx < 1) (h2 : 1 ≤ p.maxloop) :
    (top3dRun p col).loop ≤ p.maxloop ∧
    ((top3dRun p col).change ≤ p.tolx ∨ (top3dRun p col).loop = p.maxloop) ∧
    top3d p col = some (top3dRun p col).xPhys := by
  have hne : nele p ≠ 0 :=
    Nat.pos_iff_ne_zero.mp (Nat.mul_pos (Nat.mul_pos hx1 hy1) hz1)
  have hgt : (initState p col).change > p.tolx := by
    rw [initState_change]; exact h1
  have hsome : (top3dRun p col).cObj.isSome = true := by
    obtain ⟨k, hk⟩ : ∃ k, p.maxloop = k + 1 := ⟨p.maxloop - 1, by omega⟩
    unfold top3dRun
    rw [hk]
    simp only [runLoop]
    rw [if_pos hgt]
    exact runLoop_isSome p col.solver col.sqrtFn k _ rfl
  refine ⟨?_, ?_, top3d_eq_of_isSome p col hne hsome⟩
  · have h3 := runLoop_loop_le p col.solver col.sqrtFn p.maxloop (initState p col)
    have h0 : (initState p col).loop = 0 := rfl
    rw [h0, Nat.zero_add] at h3
    exact h3
  · have h3 := runLoop_exit p col.solver col.sqrtFn p.maxloop (initState p col)
    have h0 : (initState p col).loop = 0 := rfl
    rw [h0, Nat.zero_add] at h3
    exact h3

/-- Witness for the amended C6 at a concrete valid input. -/
theorem c6_witness :
    (0 < pValid.nelx ∧ pValid.tolx < 1 ∧ 1 ≤ pValid.maxloop) ∧
    ((top3dRun pValid cCollab).loop ≤ pValid.maxloop ∧
      ((top3dRun pValid cCollab).change ≤ pValid.tolx ∨
        (top3dRun pValid cCollab).loop = pValid.maxloop) ∧
      top3d pValid cCollab = some (top3dRun pValid cCollab).xPhys) :=
  ⟨⟨by decide, by decide, by decide⟩,
    c6_bounded_loop_returns_density pValid cCollab (by decide) (by decide)
      (by decide) (by decide) (by decide)⟩

/-- C5 counterexample: `pInvalid` has the configuration error `volfrac = 2`
outside `(0, 1)`, yet `top3d` reports nothing and does not fail — the
whole setup phase and the iteration loop run normally and a density array
is returned, because `top3d` contains no parameter validation at all. -/
theorem c5_counterexample :
    1 < pInvalid.volfrac ∧ (top3d pInvalid cCollab).isSome = true :=
  ⟨by decide, by rfl⟩

/-- C5 amended: `top3d` contains no configuration validation check: errors
in `volfrac` (outside `(0, 1)`) and non-positive `rmin`/`tolx`/`maxloop`
are never reported — setup proceeds unconditionally and, whenever
`tolx < 1` and `maxloop >= 1` (and the grid is nonempty), the run
completes and returns a density array even for such invalid
configurations.  Only a non-positive grid dimension makes the run fail
immediately before any setup work, and then not through validation but
through an accidental `ZeroDivisionError` raised while formatting the
design-elements debug-log f-string at optimizer.py line 89 (the division
`design_nele / nele` with `nele = 0`). -/
theorem c5_no_validation_run_completes (p : Params) (col : Collab) :
    (nele p = 0 → top3d p col = none) ∧
    (nele p ≠ 0 → p.tolx < 1 → 1 ≤ p.maxloop →
      (top3d p col).isSome = true) := by
  constructor
  · intro hn
    unfold top3d
    rw [if_pos hn]
  · intro hn h1 h2
    have hgt : (initState p col).change > p.tolx := by
      rw [initState_change]; exact h1
    have hsome : (top3dRun p col).cObj.isSome = true := by
      obtain ⟨k, hk⟩ : ∃ k, p.maxloop = k + 1 := ⟨p.maxloop - 1, by omega⟩
      unfold top3dRun
      rw [hk]
      simp only [runLoop]
      rw [if_pos hgt]
      exact runLoop_isSome p col.solver col.sqrtFn k _ rfl
    rw [top3d_eq_of_isSome p col hn hsome]
    rfl

/-- Witness for the amended C5: the invalid configuration `volfrac = 2`
still yields a returned array, while a zero grid dimension yields the
immediate `ZeroDivisionError` failure. -/
theorem c5_witness :
    (nele pInvalid ≠ 0 ∧ pInvalid.tolx < 1 ∧ 1 ≤ pInvalid.maxloop ∧
      1 < pInvalid.volfrac) ∧
    (top3d pInvalid cCollab).isSome = true ∧
    (nele pZero = 0 ∧ top3d pZero cCollab = none) :=
  ⟨⟨by decide, by decide, by decide, by decide⟩,
    (c5_no_validation_run_completes pInvalid cCollab).2 (by decide)
      (by decide) (by decide),
    by decide,
    (c5_no_validation_run_completes pZero cCollab).1 (by decide)⟩

theorem runLoop_congr (p1 p2 : Params) (sol : (ℕ → ℕ → ℚ) → Field → Field)
    (sq : ℚ → ℚ) (ht : p1.tolx = p2.tolx)
    (hstep : ∀ s, step p1 sol sq s = step p2 sol sq s) :
    ∀ fuel s, runLoop p1 sol sq fuel s = runLoop p2 sol sq fuel s := by
  intro fuel
  induction fuel with
  | zero => intro s; rfl
  | succ n ih =>
    intro s
    simp only [runLoop]
    rw [ht, hstep s, ih (step p2 sol sq s)]

/-- C10: calling `top3d` with `obstacle_mask=None` gives the same result as
calling it with an all-`False` mask of the grid's shape: line 85 of
optimizer.py replaces the `None` default by `np.zeros(..., dtype=bool)`
before the mask is used anywhere else. -/
theorem c10_none_mask_equiv (nelx nely nelz : ℕ) (volfrac : ℚ) (penal : ℕ)
    (rmin dth tolx : ℚ) (maxloop : ℕ) (col : Collab) :
    top3d ⟨nelx, nely, nelz, volfrac, penal, rmin, dth, none, tolx, maxloop⟩
        col =
      top3d ⟨nelx, nely, nelz, volfrac, penal, rmin, dth,
        some (fun _ => false), tolx, maxloop⟩ col := by
  have hrl := runLoop_congr
    ⟨nelx, nely, nelz, volfrac, penal, rmin, dth, none, tolx, maxloop⟩
    ⟨nelx, nely, nelz, volfrac, penal, rmin, dth, some (fun _ => false),
      tolx, maxloop⟩
    col.solver col.sqrtFn rfl (fun s => rfl)
  unfold top3d top3dRun
  rw [hrl]
  rfl

/-- C8: across every iteration of the `top3d` loop, the DOF partition (the
free-DOF indicator; fixed DOFs are its complement), the filter matrix `H`
and normalization vector `Hs`, the force vector `F`, the element DOF table
`edofMat`, the assembly index pairs (and with them the assembly map, which
is a pure function of the pair list), and the sparsity pattern of the
global stiffness matrix are never mutated; the step rebinds only the
stored matrix values, the density fields `x` and `xPhys`, the displacement
vector `U`, and the scalar iteration bookkeeping. -/
theorem c8_setup_never_mutated (p : Params)
    (sol : (ℕ → ℕ → ℚ) → Field → Field) (sq : ℚ → ℚ) (fuel : ℕ)
    (s : OptState) :
    (runLoop p sol sq fuel s).freedofs = s.freedofs ∧
    (runLoop p sol sq fuel s).H = s.H ∧
    (runLoop p sol sq fuel s).Hs = s.Hs ∧
    (runLoop p sol sq fuel s).F = s.F ∧
    (runLoop p sol sq fuel s).edofMat = s.edofMat ∧
    (runLoop p sol sq fuel s).pairsList = s.pairsList ∧
    sparsityKeys (runLoop p sol sq fuel s) = sparsityKeys s := by
  induction fuel generalizing s with
  | zero => exact ⟨rfl, rfl, rfl, rfl, rfl, rfl, rfl⟩
  | succ n ih =>
    simp only [runLoop]
    split
    · exact ih (step p sol sq s)
    · exact ⟨rfl, rfl, rfl, rfl, rfl, rfl, rfl⟩

/-- C1: the call `top3d(..., save_history=..., history_frequency=...,
benchmark_tracker=...)` made by `execute_optimization` cannot return
anything: `top3d` accepts none of those three keywords (its signature at
optimizer.py lines 27-38 has no such parameters and no `**kwargs`), so
under Python calling semantics every such call raises `TypeError` before
the optimizer body runs, for any value of `create_animation`. -/
theorem c1_history_keywords_rejected :
    pythonKeywordCall top3dParamNames executeOptimizationKeywords =
      Except.error "TypeError: unexpected keyword argument" ∧
    "save_history" ∉ top3dParamNames := by
  exact ⟨by rfl, by decide⟩

/-- C3 counterexample: for the `build_filter` matrix of a 1 x 3 x 1 grid
with `rmin = 3/2` (row sums `Hs = (2, 5/2, 2)`) and the unit field
concentrated in element 0, the sensitivity-filter expression of
optimizer.py line 180, `H * (v / Hs)`, gives `1/4` at element 1 while the
claimed formula `(H * v) / Hs` gives `1/5` — the two are different
operators, so the same normalized weighted average is not used for
densities and for sensitivities. -/
theorem c3_counterexample :
    filterSens 3 cH3 cHs3 v3 1 ≠ filterDensity 3 cH3 cHs3 v3 1 := by
  norm_num [filterSens, filterDensity, cH3, cHs3, v3, Finset.sum_range_succ,
    Finset.sum_range_zero, Rat.mkRat_eq_divInt, Rat.divInt_eq_div]

/-- C3 amended: the density field is filtered as `(H * flatten(v)) / Hs`
(apply `H`, then divide element-wise by `Hs`), while the sensitivity
fields `dc` and `dv` are filtered as `H * (flatten(v) / Hs)` (divide
element-wise by `Hs` first, then apply `H`); the physical density produced
by each iteration is the density-filtered and obstacle-zeroed image of the
updated design variables. -/
theorem c3_filter_formulas (n : ℕ) (H : ℕ → ℕ → ℚ) (Hs : ℕ → ℚ) (v : Field)
    (i : ℕ) (p : Params) (sol : (ℕ → ℕ → ℚ) → Field → Field) (sq : ℚ → ℚ)
    (s : OptState) :
    filterDensity n H Hs v i = (∑ j ∈ Finset.range n, H i j * v j) / Hs i ∧
    filterSens n H Hs v i = ∑ j ∈ Finset.range n, H i j * v j / Hs j ∧
    (step p sol sq s).xPhys =
      maskZero (maskOf p)
        (filterDensity (nele p) s.H s.Hs ((step p sol sq s).x)) := by
  refine ⟨rfl, ?_, rfl⟩
  simp [filterSens, mul_div_assoc]

theorem indexOf_inst (a : ℕ × ℕ) (l : List (ℕ × ℕ)) :
    l.indexOf a = @List.indexOf (ℕ × ℕ) instBEqOfDecidableEq a l := by
  simp only [List.indexOf]
  congr 1
  funext b
  show (b == a) = decide (b = a)
  by_cases hb : b = a
  · subst hb
    simp
  · simp [hb]

theorem assembled_eq_scratch (l : List ((ℕ × ℕ) × ℚ)) (pr : ℕ × ℕ) :
    assembledEntry l pr = scratchEntry l pr := by
  by_cases h : pr ∈ uniqueKeys l
  · rw [assembledEntry, if_pos h]
    unfold bincountAt scratchEntry
    congr 1
    congr 1
    apply List.filter_congr
    intro a ha
    have hmem : a.1 ∈ uniqueKeys l :=
      List.mem_dedup.mpr (List.mem_map_of_mem Prod.fst ha)
    rw [Bool.eq_iff_iff]
    simp only [beq_iff_eq]
    rw [indexOf_inst a.1, indexOf_inst pr]
    exact List.indexOf_inj hmem h
  · rw [assembledEntry, if_neg h]
    have hnil : l.filter (fun a => a.1 == pr) = [] := by
      rw [List.filter_eq_nil_iff]
      intro a ha hbeq
      exact h (List.mem_dedup.mpr
        (List.mem_map.mpr ⟨a, ha, by simpa using hbeq⟩))
    unfold scratchEntry
    rw [hnil]
    rfl

/-- C7: for every list of global index pairs and every vector of weighted
local stiffness values (in particular the `576 * nele` values
`np.kron(stiff_vals, KE.ravel())` of any grid and stiffness-scalar
vector), accumulating through the precomputed deduplicated assembly map
(`np.unique` over pairs followed by `np.bincount` into the fixed CSR
template) yields entry-for-entry the same global sparse matrix values as a
from-scratch sparse build that sums duplicate `(row, col)` contributions
directly. -/
theorem c7_assembly_map_matches_scratch (pairs : List (ℕ × ℕ)) (vals : ℕ → ℚ)
    (pr : ℕ × ℕ) :
    assembledEntry (asmListOf pairs vals) pr =
      scratchEntry (asmListOf pairs vals) pr :=
  assembled_eq_scratch (asmListOf pairs vals) pr

theorem clip_mem (v lo hi : ℚ) (hlo : 0 ≤ lo) (hhi0 : 0 ≤ hi) (hhi1 : hi ≤ 1) :
    0 ≤ clip v lo hi ∧ clip v lo hi ≤ 1 := by
  unfold clip
  exact ⟨le_min (le_trans hlo (le_max_right v lo)) hhi0,
    le_trans (min_le_right _ _) hhi1⟩

theorem ocProposal_bounds (sq : ℚ → ℚ) (x dc dv : Field) (m : Mask)
    (lmid : ℚ) (n : ℕ) (hx : fieldOk n x) :
    fieldOk n (ocProposal sq x dc dv m lmid) := by
  intro e he
  unfold ocProposal
  split
  · exact hx e he
  · apply clip_mem
    · exact le_max_left 0 _
    · exact le_min (by norm_num) (by linarith [(hx e he).1])
    · exact min_le_left 1 _

theorem ocBisect_bounds (sq : ℚ → ℚ) (n : ℕ) (H : ℕ → ℕ → ℚ) (Hs : ℕ → ℚ)
    (m : Mask) (dn : ℕ) (vf : ℚ) (x dc dv : Field) (hx : fieldOk n x) :
    ∀ fuel l1 l2, fieldOk n (ocBisect sq n H Hs m dn vf x dc dv fuel l1 l2) := by
  intro fuel
  induction fuel with
  | zero => intro l1 l2; exact ocProposal_bounds sq x dc dv m _ n hx
  | succ k ih =>
    intro l1 l2
    simp only [ocBisect]
    split
    · split
      · exact ih _ _
      · exact ih _ _
    · exact ocProposal_bounds sq x dc dv m _ n hx

theorem ocUpdate_bounds (sq : ℚ → ℚ) (n : ℕ) (H : ℕ → ℕ → ℚ) (Hs : ℕ → ℚ)
    (m : Mask) (dn : ℕ) (vf : ℚ) (x dc dv : Field) (hx : fieldOk n x) :
    fieldOk n (ocUpdate sq n H Hs m dn vf x dc dv).1 :=
  ocBisect_bounds sq n H Hs m dn vf x dc dv hx 200 0 1000000000

theorem maskZero_fieldOk (n : ℕ) (m : Mask) (v : Field) (hv : fieldOk n v) :
    fieldOk n (maskZero m v) := by
  intro e he
  unfold maskZero
  split
  · exact ⟨le_refl 0, by norm_num⟩
  · exact hv e he

theorem maskZero_maskedOk (m : Mask) (v : Field) :
    maskedOk m (maskZero m v) := by
  intro e he
  simp [maskZero, he]

theorem filterDensity_fieldOk (n : ℕ) (H : ℕ → ℕ → ℚ) (Hs : ℕ → ℚ)
    (v : Field) (hf : filterOk n H Hs) (hv : fieldOk n v) :
    fieldOk n (filterDensity n H Hs v) := by
  intro i hi
  obtain ⟨hnn, hrow, hpos⟩ := hf
  have hHs := hpos i hi
  unfold filterDensity
  constructor
  · apply div_nonneg
    · apply Finset.sum_nonneg
      intro j hj
      exact mul_nonneg (hnn i j hi (Finset.mem_range.mp hj))
        (hv j (Finset.mem_range.mp hj)).1
    · exact le_of_lt hHs
  · rw [div_le_one hHs, hrow i hi]
    apply Finset.sum_le_sum
    intro j hj
    calc H i j * v j ≤ H i j * 1 :=
          mul_le_mul_of_nonneg_left (hv j (Finset.mem_range.mp hj)).2
            (hnn i j hi (Finset.mem_range.mp hj))
      _ = H i j := mul_one _

theorem step_stateOk (p : Params) (sol : (ℕ → ℕ → ℚ) → Field → Field)
    (sq : ℚ → ℚ) (s : OptState) (h : stateOk p s) :
    stateOk p (step p sol sq s) := by
  obtain ⟨hf, hx, hmx, _⟩ := h
  refine ⟨hf, ?_, ?_, ?_⟩
  · exact maskZero_fieldOk _ _ _
      (ocUpdate_bounds _ _ _ _ _ _ _ _ _ _ hx)
  · exact maskZero_maskedOk _ _
  · intro _
    refine ⟨?_, maskZero_maskedOk _ _⟩
    exact maskZero_fieldOk _ _ _
      (filterDensity_fieldOk _ _ _ _ hf
        (maskZero_fieldOk _ _ _ (ocUpdate_bounds _ _ _ _ _ _ _ _ _ _ hx)))

theorem runLoop_stateOk (p : Params) (sol : (ℕ → ℕ → ℚ) → Field → Field)
    (sq : ℚ → ℚ) : ∀ fuel s, stateOk p s →
      stateOk p (runLoop p sol sq fuel s) := by
  intro fuel
  induction fuel with
  | zero => intro s h; exact h
  | succ n ih =>
    intro s h
    simp only [runLoop]
    split
    · exact ih _ (step_stateOk p sol sq s h)
    · exact h

/-- C2: for every valid input (positive grid dimensions, `volfrac` in
`(0,1)`, `penal >= 1`, `rmin > 0`, `tolx > 0`, `maxloop >= 1`, and a
well-formed filter pair standing for the `build_filter` output at
`rmin > 0`), any array returned by `top3d` has every entry in `[0, 1]` and
is exactly `0` at every cell where the obstacle mask is true.  (On inputs
where no array is returned — see C9 — the statement is vacuous.) -/
theorem c2_result_bounds (p : Params) (col : Collab)
    (hx1 : 0 < p.nelx) (hy1 : 0 < p.nely) (hz1 : 0 < p.nelz)
    (hv0 : 0 < p.volfrac) (hv1 : p.volfrac < 1) (hp : 1 ≤ p.penal)
    (hr : 0 < p.rmin) (ht : 0 < p.tolx) (hm : 1 ≤ p.maxloop)
    (hH : filterOk (nele p) col.H col.Hs) :
    ∀ r ∈ top3d p col,
      (∀ e, e < nele p → 0 ≤ r e ∧ r e ≤ 1) ∧
      (∀ e, maskOf p e = true → r e = 0) := by
  intro r hrmem
  have hinit : stateOk p (initState p col) := by
    refine ⟨hH, ?_, maskZero_maskedOk _ _, ?_⟩
    · apply maskZero_fieldOk
      intro e he
      exact ⟨le_of_lt hv0, le_of_lt hv1⟩
    · intro hcs
      rw [show (initState p col).cObj = none from rfl] at hcs
      simp at hcs
  have hfin : stateOk p (top3dRun p col) :=
    runLoop_stateOk p col.solver col.sqrtFn p.maxloop _ hinit
  have hne : nele p ≠ 0 :=
    Nat.pos_iff_ne_zero.mp (Nat.mul_pos (Nat.mul_pos hx1 hy1) hz1)
  rw [Option.mem_def] at hrmem
  cases hco : (top3dRun p col).cObj with
  | none =>
    unfold top3d at hrmem
    rw [if_neg hne, hco] at hrmem
    simp at hrmem
  | some a =>
    have hs : (top3dRun p col).cObj.isSome = true := by rw [hco]; rfl
    rw [top3d_eq_of_isSome p col hne hs] at hrmem
    have hxr : (top3dRun p col).xPhys = r := Option.some.inj hrmem
    subst hxr
    exact hfin.2.2.2 hs

theorem cCollab_filterOk : filterOk (nele pValid) cCollab.H cCollab.Hs := by
  have h1 : nele pValid = 1 := rfl
  refine ⟨?_, ?_, ?_⟩
  · intro i j hi hj
    rw [h1] at hi hj
    have hi0 : i = 0 := by omega
    have hj0 : j = 0 := by omega
    subst hi0; subst hj0
    decide
  · intro i hi
    rw [h1] at hi
    have hi0 : i = 0 := by omega
    subst hi0
    rw [h1]
    rw [Finset.sum_range_one]
    rfl
  · intro i hi
    show (0 : ℚ) < mkRat 3 2
    decide

/-- Witness for C2 at a concrete valid input. -/
theorem c2_witness :
    (0 < pValid.volfrac ∧ pValid.volfrac < 1 ∧ 0 < pValid.tolx) ∧
    (∀ r ∈ top3d pValid cCollab,
      (∀ e, e < nele pValid → 0 ≤ r e ∧ r e ≤ 1) ∧
      (∀ e, maskOf pValid e = true → r e = 0)) :=
  ⟨⟨by decide, by decide, by decide⟩,
    c2_result_bounds pValid cCollab (by decide) (by decide) (by decide)
      (by decide) (by decide) (by decide) (by decide) (by decide) (by decide)
      cCollab_filterOk⟩

end PyTopo3D
